import Mathlib

/-
  Verification development for the pyremedy binding (src/pyremedy/ars.py).

  The ARS object drives a native C library through a sequence of calls; every
  native call fills caller-supplied result structures and a status list, and
  the Python code is responsible for releasing each filled structure with the
  matching FreeAR function.  The embedding below models:

  - the native layer as an oracle of responses (structure Native), one field
    per native entry point used by the code;
  - the mutable instance state (errors, schema cache, field name caches,
    enum cache) as an explicit ARSState threaded through every operation;
  - Python dictionaries as association lists with update-in-place semantics
    (pget?, pset, pmem, pgetD);
  - resource handling as an event trace: one Ev.alloc per result structure
    filled by a native call, one Ev.free per FreeAR call made by the code,
    and one Ev.call per native entry point invoked;
  - Python exceptions as an Err value: Err.ars for the ARSError raised by
    the binding, Err.key for a bare KeyError escaping a dict lookup.

  Each operation returns (result, new state, event trace).
-/

deriving instance DecidableEq for Except

namespace PyRemedy

/-- Lookup in an association list, first binding wins; models Python dict
indexing, with Option.none standing for a KeyError. -/
def pget? {α β : Type} [DecidableEq α] : List (α × β) → α → Option β
  | [], _ => Option.none
  | (k, v) :: rest, k2 => if k2 = k then some v else pget? rest k2

/-- Lookup with a default, used where the key is known to be present. -/
def pgetD {α β : Type} [DecidableEq α] (d : List (α × β)) (k : α) (dflt : β) : β :=
  (pget? d k).getD dflt

/-- Python dict assignment d[k] = v: overwrite the existing binding in place,
or append a fresh binding at the end. -/
def pset {α β : Type} [DecidableEq α] : List (α × β) → α → β → List (α × β)
  | [], k, v => [(k, v)]
  | (k2, v2) :: rest, k, v =>
      if k2 = k then (k2, v) :: rest else (k2, v2) :: pset rest k v

/-- Python membership test k in d. -/
def pmem {α β : Type} [DecidableEq α] (d : List (α × β)) (k : α) : Bool :=
  (pget? d k).isSome

/-- One record of an ARStatusList: message number, message text and the
optional appended text, as read by the code in its error handler. -/
abbrev StatusRec := Nat × String × Option String

/-- A decoded Python value produced by query: None, a str (CHAR text or an
enum label after lookup) or a datetime built from an epoch value (modelled
by carrying the epoch integer, since the local time conversion is a fixed
injective function of it). -/
inductive PyVal
  | pynull
  | pystr (s : String)
  | pytime (t : Int)
deriving DecidableEq, BEq

/-- A raw tagged field value returned by the entry retrieval call: the
dataType tag together with the matching union member.  otherV covers every
tag the code does not recognise. -/
inductive RawVal
  | nullV
  | charV (s : String)
  | enumV (n : Nat)
  | timeV (t : Int)
  | otherV (tag : Nat)
deriving DecidableEq, BEq

/-- Field limit metadata as consumed by update_fields: either the field is
not an enum, or the enum limits come in the regular style (labels listed in
ordinal order), the custom style (explicit ordinal and label pairs), or any
other style (the query style and anything else lands in the catch-all else
branch of the code). -/
inductive FieldLimit
  | nonEnum
  | enumRegular (names : List String)
  | enumCustom (items : List (Nat × String))
  | enumQuery
deriving DecidableEq, BEq

/-- One entry of the AREntryListFieldValueList result: the entry id list and
the (fieldId, raw value) pairs of the value list. -/
structure RawEntry where
  entryIds : List String
  values : List (Nat × RawVal)
deriving DecidableEq, BEq

/-- Resource events: a native entry point invoked, a result structure filled
by a native call (or, for AREntryListFieldList, allocated with malloc), and
a FreeAR release performed by the code. -/
inductive Ev
  | call (api : String)
  | alloc (s : String)
  | free (s : String)
deriving DecidableEq, BEq

/-- Exceptions escaping an operation: the typed ARSError of the binding with
its message, or a bare Python KeyError from a failed dict lookup. -/
inductive Err
  | ars (msg : String)
  | key
deriving DecidableEq, BEq

/-- The mutable state of an ARS instance: the errors attribute, the schema
list cache, the per schema forward (name to id) and reverse (id to name)
field caches, and the per schema per field enum tables. -/
structure ARSState where
  errors : List StatusRec
  schema_cache : Option (List String)
  field_name_cache : List (String × List (String × Nat))
  field_name_cache_rev : List (String × List (Nat × String))
  field_enum_cache : List (String × List (Nat × List (Nat × String)))
deriving DecidableEq, BEq

/-- The state of a freshly constructed instance. -/
def initState : ARSState :=
  { errors := [], schema_cache := Option.none, field_name_cache := [],
    field_name_cache_rev := [], field_enum_cache := [] }

/-- The native layer as an oracle of responses.  Each field models one native
entry point: an error response carries the status records the code reads in
its error handler; a success response carries the data filled into the
result structures. -/
structure Native where
  arInit : Except (List StatusRec) Unit
  setServerPort : Except (List StatusRec) Unit
  arTermination : Except (List StatusRec) Unit
  getListSchema : Except (List StatusRec) (List String)
  getListField : String → Except (List StatusRec) (List Nat)
  getMultipleFields : String → List Nat → Except (List StatusRec) (List String × List FieldLimit)
  loadQualifier : String → String → Except (List StatusRec) Unit
  getListEntryWithFields : String → List Nat → Except (List StatusRec) (List RawEntry)

/-- The _update_errors method: clear self.errors and refill it from the
status records of the call that just failed. -/
def updErrors (st : ARSState) (status : List StatusRec) : ARSState :=
  { st with errors := status }

/-- Regular style enum table: ordinal j maps to the j-th label, the loop
assigning fresh keys 0, 1, 2, ... in order. -/
def regTableAux (j : Nat) : List String → List (Nat × String)
  | [] => []
  | n :: rest => (j, n) :: regTableAux (j + 1) rest

def regTable (names : List String) : List (Nat × String) :=
  regTableAux 0 names

/-- Custom style enum table: itemNumber and itemName pairs assigned in
order, a repeated itemNumber overwriting the earlier binding. -/
def customTable (items : List (Nat × String)) : List (Nat × String) :=
  items.foldl (fun t p => pset t p.1 p.2) []

/-- The dict comprehension inverting the forward map at the end of
update_fields: iterate the (name, id) items and bind id to name, a repeated
id overwriting the earlier binding. -/
def invertDict (d : List (String × Nat)) : List (Nat × String) :=
  d.foldl (fun acc p => pset acc p.2 p.1) []

/-- self.field_name_cache[schema][field_name] = field_id. -/
def setFwd (st : ARSState) (scm name : String) (fid : Nat) : ARSState :=
  { st with
    field_name_cache :=
      pset st.field_name_cache scm (pset (pgetD st.field_name_cache scm []) name fid) }

/-- self.field_enum_cache[schema][field_id] = tbl. -/
def setEnumFid (st : ARSState) (scm : String) (fid : Nat) (tbl : List (Nat × String)) : ARSState :=
  { st with
    field_enum_cache :=
      pset st.field_enum_cache scm (pset (pgetD st.field_enum_cache scm []) fid tbl) }

/-- The per field loop of update_fields over the (field id, field name,
field limit) triples.  Every iteration first stores the forward mapping;
an enum field then gets its enum table initialised and filled; a query
style enum raises after the empty table was stored, returning the partially
mutated state together with the offending field id. -/
def fieldsLoop (scm : String) :
    List (Nat × String × FieldLimit) → ARSState → Except (Nat × ARSState) ARSState
  | [], st => .ok st
  | (fid, name, lim) :: rest, st =>
      let st1 := setFwd st scm name fid
      match lim with
      | .nonEnum => fieldsLoop scm rest st1
      | .enumRegular names => fieldsLoop scm rest (setEnumFid st1 scm fid (regTable names))
      | .enumCustom items => fieldsLoop scm rest (setEnumFid st1 scm fid (customTable items))
      | .enumQuery => .error (fid, setEnumFid st1 scm fid [])

/-- Trace of update_fields when ARGetListField itself fails: its id list and
status list are filled, then both are released. -/
def evGetListFieldFail : List Ev :=
  [.call "ARGetListField", .alloc "ARInternalIdList", .alloc "ARStatusList",
   .free "ARInternalIdList", .free "ARStatusList"]

/-- Trace of update_fields once ARGetMultipleFields has been invoked.  The
same trace arises on the ARGetMultipleFields failure path, on the query
enum failure path and on the success path: all three release the id list,
the boolean list, the name list and the status list, and none of the three
ever releases the ARFieldLimitList. -/
def evUpdateFieldsRun : List Ev :=
  [.call "ARGetListField", .alloc "ARInternalIdList", .alloc "ARStatusList",
   .free "ARStatusList",
   .call "ARGetMultipleFields", .alloc "ARBooleanList", .alloc "ARNameList",
   .alloc "ARFieldLimitList", .alloc "ARStatusList",
   .free "ARInternalIdList", .free "ARBooleanList", .free "ARNameList",
   .free "ARStatusList"]

/-- The update_fields method: serve from the caches when the schema is in
both the forward cache and the enum cache, otherwise fetch the data field
ids, fetch the field metadata, initialise the three per schema maps and run
the per field loop, finally rebuilding the reverse map as the inverse of
the forward map. -/
def update_fields (nt : Native) (scm : String) (st : ARSState) :
    Except Err Unit × ARSState × List Ev :=
  if pmem st.field_name_cache scm && pmem st.field_enum_cache scm then
    (.ok (), st, [])
  else
    match nt.getListField scm with
    | .error status =>
        (.error (.ars ("Unable to obtain field ids for schema " ++ scm)),
         updErrors st status, evGetListFieldFail)
    | .ok ids =>
        match nt.getMultipleFields scm ids with
        | .error status =>
            (.error (.ars ("Unable to obtain field information for schema " ++ scm)),
             updErrors st status, evUpdateFieldsRun)
        | .ok (names, limits) =>
            match fieldsLoop scm (ids.zip (names.zip limits))
                { st with
                  field_name_cache := pset st.field_name_cache scm [],
                  field_name_cache_rev := pset st.field_name_cache_rev scm [],
                  field_enum_cache := pset st.field_enum_cache scm [] } with
            | .error (fid, st2) =>
                (.error (.ars ("The field id " ++ toString fid ++ " for schema " ++ scm ++
                   " is a query enum which is not supported by PyRemedy")),
                 st2, evUpdateFieldsRun)
            | .ok st2 =>
                (.ok (),
                 { st2 with
                   field_name_cache_rev :=
                     pset st2.field_name_cache_rev scm
                       (invertDict (pgetD st2.field_name_cache scm [])) },
                 evUpdateFieldsRun)

/-- The schemas method: serve the cached list when present, otherwise call
ARGetListSchema, cache and return the name list, releasing the name list
and the status list on both outcomes. -/
def schemas (nt : Native) (st : ARSState) :
    Except Err (List String) × ARSState × List Ev :=
  match st.schema_cache with
  | some cached => (.ok cached, st, [])
  | Option.none =>
      match nt.getListSchema with
      | .error status =>
          (.error (.ars "Unable to obtain a list of schemas"), updErrors st status,
           [.call "ARGetListSchema", .alloc "ARNameList", .alloc "ARStatusList",
            .free "ARNameList", .free "ARStatusList"])
      | .ok names =>
          (.ok names, { st with schema_cache := some names },
           [.call "ARGetListSchema", .alloc "ARNameList", .alloc "ARStatusList",
            .free "ARNameList", .free "ARStatusList"])

/-- The terminate method: call ARTermination and release the status list; no
termination flag is recorded on the instance in either outcome. -/
def terminate (nt : Native) (st : ARSState) :
    Except Err Unit × ARSState × List Ev :=
  match nt.arTermination with
  | .error status =>
      (.error (.ars "Enable to terminate the server connection"), updErrors st status,
       [.call "ARTermination", .alloc "ARStatusList", .free "ARStatusList"])
  | .ok _ =>
      (.ok (), st, [.call "ARTermination", .alloc "ARStatusList", .free "ARStatusList"])

/-- Insertion of a string into a sorted list, for the sorted builtin. -/
def insortStr (s : String) : List String → List String
  | [] => [s]
  | t :: ts => if s ≤ t then s :: t :: ts else t :: insortStr s ts

/-- sorted(keys) as used by the fields method. -/
def pysorted (l : List String) : List String :=
  l.foldr insortStr []

/-- The fields method: ensure the caches are populated, then return the
sorted field names of the schema. -/
def fields (nt : Native) (scm : String) (st : ARSState) :
    Except Err (List String) × ARSState × List Ev :=
  match update_fields nt scm st with
  | (.error e, st1, ev) => (.error e, st1, ev)
  | (.ok _, st1, ev) =>
      (.ok (pysorted ((pgetD st1.field_name_cache scm []).map Prod.fst)), st1, ev)

/-- The constructor: ARInitialization, then ARSetServerPort when a port or
RPC program number was given; on failure the partially built instance is
discarded with the ARSError, on success the instance starts with empty
caches and an empty errors list. -/
def initConn (nt : Native) (server : String) (port rpc : Nat) :
    Except Err ARSState × List Ev :=
  match nt.arInit with
  | .error _ =>
      (.error (.ars ("Enable to perform initialisation against server " ++ server)),
       [.call "ARInitialization", .alloc "ARStatusList", .free "ARStatusList"])
  | .ok _ =>
      if port ≠ 0 ∨ rpc ≠ 0 then
        match nt.setServerPort with
        | .error _ =>
            (.error (.ars ("Unable to set the port to " ++ toString port ++
               " and RPC program number to " ++ toString rpc ++ " for server " ++ server)),
             [.call "ARInitialization", .alloc "ARStatusList", .free "ARStatusList",
              .call "ARSetServerPort", .alloc "ARStatusList", .free "ARStatusList"])
        | .ok _ =>
            (.ok initState,
             [.call "ARInitialization", .alloc "ARStatusList", .free "ARStatusList",
              .call "ARSetServerPort", .alloc "ARStatusList", .free "ARStatusList"])
      else
        (.ok initState, [.call "ARInitialization", .alloc "ARStatusList", .free "ARStatusList"])

/-- Failure of the per value decode loop inside query: a bare KeyError from
a dict lookup (reverse map miss or enum table miss), or the unknown data
type branch, which carries the field name for the ARSError message. -/
inductive DecErr
  | key
  | unknown (fieldName : String)
deriving DecidableEq, BEq

/-- The inner loop of query over the (fieldId, raw value) pairs of one
entry.  Each completed iteration stores the decoded value in the entry dict
and then executes entries.append; since every appended pair aliases the one
dict of the entry, the loop returns the final dict contents together with
the number of appends performed. -/
def decodeValues (st : ARSState) (scm : String) :
    List (Nat × RawVal) → List (String × PyVal) → Nat →
    Except DecErr (List (String × PyVal) × Nat)
  | [], acc, cnt => .ok (acc, cnt)
  | (fid, rv) :: rest, acc, cnt =>
      match pget? (pgetD st.field_name_cache_rev scm []) fid with
      | Option.none => .error .key
      | some fname =>
          match rv with
          | .nullV =>
              decodeValues st scm rest (pset acc fname PyVal.pynull) (cnt + 1)
          | .charV s =>
              decodeValues st scm rest (pset acc fname (PyVal.pystr s)) (cnt + 1)
          | .enumV n =>
              match pget? (pgetD (pgetD st.field_enum_cache scm []) fid []) n with
              | Option.none => .error .key
              | some label =>
                  decodeValues st scm rest (pset acc fname (PyVal.pystr label)) (cnt + 1)
          | .timeV t =>
              decodeValues st scm rest (pset acc fname (PyVal.pytime t)) (cnt + 1)
          | .otherV _ => .error (.unknown fname)

/-- Failure of the outer entry loop of query: an entry whose id count is not
one, or a failure propagated from the value decode loop. -/
inductive LoopErr
  | multiId
  | key
  | unknown (fieldName : String)
deriving DecidableEq, BEq

/-- The outer loop of query over the returned entries: reject an entry whose
id list does not hold exactly one id, decode its values, and extend the
result list with one pair per performed append (all aliasing the final
entry dict). -/
def entriesLoop (st : ARSState) (scm : String) :
    List RawEntry → List (String × List (String × PyVal)) →
    Except LoopErr (List (String × List (String × PyVal)))
  | [], acc => .ok acc
  | e :: rest, acc =>
      if e.entryIds.length ≠ 1 then .error .multiId
      else
        match decodeValues st scm e.values [] 0 with
        | .error .key => .error .key
        | .error (.unknown f) => .error (.unknown f)
        | .ok (vals, cnt) =>
            entriesLoop st scm rest (acc ++ List.replicate cnt (e.entryIds.headD "", vals))

/-- Trace of query when ARLoadARQualifierStruct fails: the qualifier and the
status list are filled and both released. -/
def evLoadQualFail : List Ev :=
  [.call "ARLoadARQualifierStruct", .alloc "ARQualifierStruct", .alloc "ARStatusList",
   .free "ARQualifierStruct", .free "ARStatusList"]

/-- Trace of query (after cache population) up to and including the
ARGetListEntryWithFields invocation: the qualifier kept for the next call,
its status released, the field list allocated with malloc, then the entry
list and a fresh status list filled. -/
def evQueryPre : List Ev :=
  [.call "ARLoadARQualifierStruct", .alloc "ARQualifierStruct", .alloc "ARStatusList",
   .free "ARStatusList",
   .alloc "AREntryListFieldList",
   .call "ARGetListEntryWithFields", .alloc "AREntryListFieldValueList", .alloc "ARStatusList"]

/-- The four releases performed by query on the entry retrieval failure
path, the multiple id path, the unknown data type path and the success
path; the KeyError path performs none of them. -/
def evQueryFrees : List Ev :=
  [.free "ARQualifierStruct", .free "AREntryListFieldList",
   .free "AREntryListFieldValueList", .free "ARStatusList"]

/-- The body of query after update_fields has returned: validate the
requested field names against the cache, compile the qualifier, build the
field selection list, retrieve the entries and decode them.  Note which
exits release which structures: the bare KeyError of a reverse map or enum
table miss propagates before any of the four releases. -/
def queryAfterCache (nt : Native) (scm qual : String) (fieldsReq : List String)
    (st : ARSState) :
    Except Err (List (String × List (String × PyVal))) × ARSState × List Ev :=
  match fieldsReq.find? (fun f => !(pmem (pgetD st.field_name_cache scm []) f)) with
  | some f =>
      (.error (.ars ("A field with name " ++ f ++ " does not exist in schema " ++ scm)),
       st, [])
  | Option.none =>
      match nt.loadQualifier scm qual with
      | .error status =>
          (.error (.ars ("Unable to load the qualifier using the provided " ++
             "qualification string for schema " ++ scm)),
           updErrors st status, evLoadQualFail)
      | .ok _ =>
          match nt.getListEntryWithFields scm
              (fieldsReq.map (fun f => pgetD (pgetD st.field_name_cache scm []) f 0)) with
          | .error status =>
              (.error (.ars ("Unable to obtain a list of entries using the provided " ++
                 "qualification string for schema " ++ scm)),
               updErrors st status, evQueryPre ++ evQueryFrees)
          | .ok rawEntries =>
              match entriesLoop st scm rawEntries [] with
              | .error .multiId =>
                  (.error (.ars ("One or more entries contained multiple IDs that are " ++
                     "not supported by PyRemedy")),
                   st, evQueryPre ++ evQueryFrees)
              | .error .key =>
                  (.error .key, st, evQueryPre)
              | .error (.unknown fname) =>
                  (.error (.ars ("An unknown data type was encountered for field name " ++
                     fname ++ " on schema " ++ scm)),
                   st, evQueryPre ++ evQueryFrees)
              | .ok entries =>
                  (.ok entries, st, evQueryPre ++ evQueryFrees)

/-- The query method: populate the caches for the schema, then run the
query body; the trace is the cache population trace followed by the query
body trace. -/
def query (nt : Native) (scm qual : String) (fieldsReq : List String) (st : ARSState) :
    Except Err (List (String × List (String × PyVal))) × ARSState × List Ev :=
  match update_fields nt scm st with
  | (.error e, st1, ev) => (.error e, st1, ev)
  | (.ok _, st1, ev) =>
      ((queryAfterCache nt scm qual fieldsReq st1).1,
       (queryAfterCache nt scm qual fieldsReq st1).2.1,
       ev ++ (queryAfterCache nt scm qual fieldsReq st1).2.2)

/-- Whether an event is an allocation of a native result structure. -/
def isAllocEv : Ev → Bool
  | .alloc _ => true
  | _ => false

/-- Whether an event is a FreeAR release. -/
def isFreeEv : Ev → Bool
  | .free _ => true
  | _ => false

/-- The number of result structure allocations in a trace. -/
def allocCount (tr : List Ev) : Nat := (tr.filter isAllocEv).length

/-- The number of FreeAR releases in a trace. -/
def freeCount (tr : List Ev) : Nat := (tr.filter isFreeEv).length

/-- A fake native layer with one schema "S" holding one non enum data field
"A" with id 1, and no entries. -/
def natBase : Native where
  arInit := .ok ()
  setServerPort := .ok ()
  arTermination := .ok ()
  getListSchema := .ok ["Form1"]
  getListField := fun _ => .ok [1]
  getMultipleFields := fun _ _ => .ok (["A"], [.nonEnum])
  loadQualifier := fun _ _ => .ok ()
  getListEntryWithFields := fun _ _ => .ok []

/-- A fake native layer with two non enum fields A (id 1) and B (id 2) and
one entry with a single id and one raw value per field. -/
def natC2 : Native where
  arInit := .ok ()
  setServerPort := .ok ()
  arTermination := .ok ()
  getListSchema := .ok []
  getListField := fun _ => .ok [1, 2]
  getMultipleFields := fun _ _ => .ok (["A", "B"], [.nonEnum, .nonEnum])
  loadQualifier := fun _ _ => .ok ()
  getListEntryWithFields := fun _ _ =>
    .ok [{ entryIds := ["000"], values := [(1, .charV "x"), (2, .charV "y")] }]

/-- A fake native layer whose schema holds a non enum field A (id 1)
followed by a query style enum field B (id 2). -/
def natC3 : Native where
  arInit := .ok ()
  setServerPort := .ok ()
  arTermination := .ok ()
  getListSchema := .ok []
  getListField := fun _ => .ok [1, 2]
  getMultipleFields := fun _ _ => .ok (["A", "B"], [.nonEnum, .enumQuery])
  loadQualifier := fun _ _ => .ok ()
  getListEntryWithFields := fun _ _ => .ok []

/-- A fake native layer whose schema listing call fails with one status
record, while termination succeeds. -/
def natC4 : Native where
  arInit := .ok ()
  setServerPort := .ok ()
  arTermination := .ok ()
  getListSchema := .error [(100, "boom", Option.none)]
  getListField := fun _ => .ok []
  getMultipleFields := fun _ _ => .ok ([], [])
  loadQualifier := fun _ _ => .ok ()
  getListEntryWithFields := fun _ _ => .ok []

/-- A fake native layer whose schema holds one regular enum field A (id 1)
with the single label "New" at ordinal 0, and one entry whose raw value for
field 1 is an ENUM tagged value with ordinal n. -/
def natC5 (n : Nat) : Native where
  arInit := .ok ()
  setServerPort := .ok ()
  arTermination := .ok ()
  getListSchema := .ok []
  getListField := fun _ => .ok [1]
  getMultipleFields := fun _ _ => .ok (["A"], [.enumRegular ["New"]])
  loadQualifier := fun _ _ => .ok ()
  getListEntryWithFields := fun _ _ =>
    .ok [{ entryIds := ["e1"], values := [(1, .enumV n)] }]

/-- A fake native layer with one field A (id 1) and one returned entry
reporting two entry ids. -/
def natC8 : Native where
  arInit := .ok ()
  setServerPort := .ok ()
  arTermination := .ok ()
  getListSchema := .ok []
  getListField := fun _ => .ok [1]
  getMultipleFields := fun _ _ => .ok (["A"], [.nonEnum])
  loadQualifier := fun _ _ => .ok ()
  getListEntryWithFields := fun _ _ =>
    .ok [{ entryIds := ["a", "b"], values := [] }]

/-- A fake native layer reporting two field ids i1 and i2 that share the
single field name "N". -/
def natC10 (i1 i2 : Nat) : Native where
  arInit := .ok ()
  setServerPort := .ok ()
  arTermination := .ok ()
  getListSchema := .ok []
  getListField := fun _ => .ok [i1, i2]
  getMultipleFields := fun _ _ => .ok (["N", "N"], [.nonEnum, .nonEnum])
  loadQualifier := fun _ _ => .ok ()
  getListEntryWithFields := fun _ _ => .ok []

/-- A fake native layer on which the termination, schema listing, field id
listing and qualifier compilation calls all fail, each with a distinct
status record. -/
def natFail : Native where
  arInit := .ok ()
  setServerPort := .ok ()
  arTermination := .error [(7, "tfail", Option.none)]
  getListSchema := .error [(1, "s", Option.none)]
  getListField := fun _ => .error [(2, "f", Option.none)]
  getMultipleFields := fun _ _ => .error [(3, "m", Option.none)]
  loadQualifier := fun _ _ => .error [(4, "q", Option.none)]
  getListEntryWithFields := fun _ _ => .error [(5, "e", Option.none)]

/-- A fake native layer on which the field id listing and the qualifier
compilation succeed but the multi field metadata call and the entry
retrieval call fail. -/
def natFail2 : Native where
  arInit := .ok ()
  setServerPort := .ok ()
  arTermination := .ok ()
  getListSchema := .ok []
  getListField := fun _ => .ok [1]
  getMultipleFields := fun _ _ => .error [(3, "m", Option.none)]
  loadQualifier := fun _ _ => .ok ()
  getListEntryWithFields := fun _ _ => .error [(5, "e", Option.none)]

theorem pget_pset_self {α β : Type} [DecidableEq α] (d : List (α × β)) (k : α) (v : β) :
    pget? (pset d k v) k = some v := by
  induction d with
  | nil => simp [pset, pget?]
  | cons p rest ih =>
      obtain ⟨k2, v2⟩ := p
      by_cases h : k2 = k
      · simp [pset, pget?, h]
      · have h2 : ¬(k = k2) := fun hh => h hh.symm
        simp [pset, pget?, h, h2, ih]

theorem pmem_pset_self {α β : Type} [DecidableEq α] (d : List (α × β)) (k : α) (v : β) :
    pmem (pset d k v) k = true := by
  simp [pmem, pget_pset_self]

theorem fieldsLoop_ok_inv (scm : String) (ts : List (Nat × String × FieldLimit))
    (st st2 : ARSState) (h : fieldsLoop scm ts st = .ok st2) :
    st2.field_name_cache_rev = st.field_name_cache_rev ∧
    (pmem st.field_name_cache scm = true → pmem st2.field_name_cache scm = true) ∧
    (pmem st.field_enum_cache scm = true → pmem st2.field_enum_cache scm = true) := by
  induction ts generalizing st with
  | nil =>
      simp only [fieldsLoop] at h
      injection h with h
      subst h
      exact ⟨rfl, id, id⟩
  | cons t rest ih =>
      obtain ⟨fid, name, lim⟩ := t
      cases lim with
      | nonEnum =>
          simp only [fieldsLoop] at h
          obtain ⟨h1, h2, h3⟩ := ih (setFwd st scm name fid) h
          exact ⟨h1, fun _ => h2 (pmem_pset_self _ _ _), fun he => h3 he⟩
      | enumRegular ns =>
          simp only [fieldsLoop] at h
          obtain ⟨h1, h2, h3⟩ := ih _ h
          exact ⟨h1, fun _ => h2 (pmem_pset_self _ _ _), fun _ => h3 (pmem_pset_self _ _ _)⟩
      | enumCustom items =>
          simp only [fieldsLoop] at h
          obtain ⟨h1, h2, h3⟩ := ih _ h
          exact ⟨h1, fun _ => h2 (pmem_pset_self _ _ _), fun _ => h3 (pmem_pset_self _ _ _)⟩
      | enumQuery =>
          simp only [fieldsLoop] at h
          exact Except.noConfusion h

theorem update_fields_populate (nt : Native) (scm : String) (st st1 : ARSState) (ev : List Ev)
    (h : update_fields nt scm st = (.ok (), st1, ev))
    (hmiss : (pmem st.field_name_cache scm && pmem st.field_enum_cache scm) = false) :
    pmem st1.field_name_cache scm = true ∧
    pmem st1.field_name_cache_rev scm = true ∧
    pmem st1.field_enum_cache scm = true ∧
    pget? st1.field_name_cache_rev scm =
      some (invertDict (pgetD st1.field_name_cache scm [])) := by
  unfold update_fields at h
  split at h
  · rename_i hc
    rw [hmiss] at hc
    exact Bool.noConfusion hc
  · split at h
    · exact absurd h (by simp)
    · split at h
      · exact absurd h (by simp)
      · split at h
        · exact absurd h (by simp)
        · rename_i st2 hfl
          simp only [Prod.mk.injEq] at h
          obtain ⟨-, h2, -⟩ := h
          subst h2
          obtain ⟨hrev, hfwd, henum⟩ := fieldsLoop_ok_inv _ _ _ st2 hfl
          refine ⟨hfwd (pmem_pset_self _ _ _), pmem_pset_self _ _ _,
            henum (pmem_pset_self _ _ _), ?_⟩
          exact pget_pset_self _ _ _

theorem update_fields_ok_mem (nt : Native) (scm : String) (st st1 : ARSState) (ev : List Ev)
    (h : update_fields nt scm st = (.ok (), st1, ev)) :
    pmem st1.field_name_cache scm = true ∧ pmem st1.field_enum_cache scm = true := by
  rcases Bool.eq_false_or_eq_true
      (pmem st.field_name_cache scm && pmem st.field_enum_cache scm) with hc | hc
  · have h2 : update_fields nt scm st = (.ok (), st, []) := by
      unfold update_fields
      rw [if_pos hc]
    rw [h2] at h
    simp only [Prod.mk.injEq] at h
    obtain ⟨-, h3, -⟩ := h
    subst h3
    rw [Bool.and_eq_true] at hc
    exact hc
  · obtain ⟨h1, -, h3, -⟩ := update_fields_populate nt scm st st1 ev h hc
    exact ⟨h1, h3⟩

theorem schemas_ok_cache (nt : Native) (st st2 : ARSState) (l : List String) (ev : List Ev)
    (h : schemas nt st = (.ok l, st2, ev)) : st2.schema_cache = some l := by
  unfold schemas at h
  split at h
  · rename_i cached hc
    simp only [Prod.mk.injEq] at h
    obtain ⟨h1, h2, -⟩ := h
    injection h1 with h1
    subst h1
    rw [← h2, hc]
  · split at h
    · exact absurd h (by simp)
    · simp only [Prod.mk.injEq] at h
      obtain ⟨h1, h2, -⟩ := h
      injection h1 with h1
      subst h1
      rw [← h2]

theorem update_fields_trace_cases (nt : Native) (scm : String) (st : ARSState) :
    (update_fields nt scm st).2.2 = [] ∨
    (update_fields nt scm st).2.2 = evGetListFieldFail ∨
    (update_fields nt scm st).2.2 = evUpdateFieldsRun := by
  unfold update_fields
  split
  · exact Or.inl rfl
  · split
    · exact Or.inr (Or.inl rfl)
    · split
      · exact Or.inr (Or.inr rfl)
      · split
        · exact Or.inr (Or.inr rfl)
        · exact Or.inr (Or.inr rfl)

theorem update_fields_no_query_events (nt : Native) (scm : String) (st : ARSState) :
    (update_fields nt scm st).2.2.count (Ev.call "ARLoadARQualifierStruct") = 0 ∧
    (update_fields nt scm st).2.2.count (Ev.call "ARGetListEntryWithFields") = 0 ∧
    (update_fields nt scm st).2.2.count (Ev.alloc "ARQualifierStruct") = 0 ∧
    (update_fields nt scm st).2.2.count (Ev.alloc "AREntryListFieldList") = 0 ∧
    (update_fields nt scm st).2.2.count (Ev.alloc "AREntryListFieldValueList") = 0 := by
  rcases update_fields_trace_cases nt scm st with h | h | h <;> rw [h] <;>
    exact ⟨by decide, by decide, by decide, by decide, by decide⟩

theorem find?_some_of_mem {α : Type} {p : α → Bool} {l : List α} {x : α}
    (hx : x ∈ l) (hp : p x = true) :
    ∃ y, l.find? p = some y ∧ y ∈ l ∧ p y = true := by
  induction l with
  | nil => cases hx
  | cons a t ih =>
      by_cases ha : p a = true
      · exact ⟨a, by simp [List.find?_cons_of_pos, ha], List.mem_cons_self a t, ha⟩
      · rcases List.mem_cons.mp hx with rfl | hx2
        · exact absurd hp ha
        · obtain ⟨y, h1, h2, h3⟩ := ih hx2
          refine ⟨y, ?_, List.mem_cons_of_mem a h2, h3⟩
          rw [List.find?_cons_of_neg _ ha, h1]

theorem find?_none_of_all {α : Type} {p : α → Bool} {l : List α}
    (h : ∀ x ∈ l, p x = false) : l.find? p = Option.none := by
  induction l with
  | nil => rfl
  | cons a t ih =>
      rw [List.find?_cons_of_neg]
      · exact ih fun x hx => h x (List.mem_cons_of_mem a hx)
      · simp [h a (List.mem_cons_self a t)]

theorem entriesLoop_reaches_bad (st : ARSState) (scm : String)
    (pre : List RawEntry) (bad : RawEntry) (rest : List RawEntry)
    (hbad : bad.entryIds.length ≠ 1)
    (hpre : ∀ e ∈ pre, e.entryIds.length = 1 ∧
       ∃ d c, decodeValues st scm e.values [] 0 = .ok (d, c)) :
    ∀ acc, entriesLoop st scm (pre ++ bad :: rest) acc = .error .multiId := by
  induction pre with
  | nil =>
      intro acc
      simp only [List.nil_append, entriesLoop]
      rw [if_pos hbad]
  | cons e t ih =>
      intro acc
      obtain ⟨h1, d, c, h2⟩ := hpre e (List.mem_cons_self e t)
      simp only [List.cons_append, entriesLoop]
      rw [if_neg (by simp [h1]), h2]
      exact ih (fun x hx => hpre x (List.mem_cons_of_mem e hx)) _

theorem queryAfterCache_validation (nt : Native) (scm qual : String)
    (fieldsReq : List String) (st : ARSState) (g : String)
    (hfind : fieldsReq.find? (fun f => !(pmem (pgetD st.field_name_cache scm []) f)) = some g) :
    queryAfterCache nt scm qual fieldsReq st =
      (.error (.ars ("A field with name " ++ g ++ " does not exist in schema " ++ scm)),
       st, []) := by
  unfold queryAfterCache
  rw [hfind]

theorem queryAfterCache_multiId (nt : Native) (scm qual : String)
    (fieldsReq : List String) (st : ARSState) (es : List RawEntry)
    (hval : fieldsReq.find? (fun f => !(pmem (pgetD st.field_name_cache scm []) f)) = Option.none)
    (hlq : nt.loadQualifier scm qual = .ok ())
    (hent : nt.getListEntryWithFields scm
        (fieldsReq.map (fun f => pgetD (pgetD st.field_name_cache scm []) f 0)) = .ok es)
    (hloop : entriesLoop st scm es [] = .error .multiId) :
    queryAfterCache nt scm qual fieldsReq st =
      (.error (.ars ("One or more entries contained multiple IDs that are " ++
         "not supported by PyRemedy")), st, evQueryPre ++ evQueryFrees) := by
  simp only [queryAfterCache, hval, hlq, hent, hloop]

theorem query_ok_step (nt : Native) (scm qual : String) (fs : List String)
    (st st1 : ARSState) (ev : List Ev)
    (h : update_fields nt scm st = (.ok (), st1, ev)) :
    query nt scm qual fs st =
      ((queryAfterCache nt scm qual fs st1).1,
       (queryAfterCache nt scm qual fs st1).2.1,
       ev ++ (queryAfterCache nt scm qual fs st1).2.2) := by
  unfold query
  rw [h]

theorem fieldsLoop_preserves_errors (scm : String) (ts : List (Nat × String × FieldLimit))
    (st : ARSState) :
    (∀ st2, fieldsLoop scm ts st = .ok st2 → st2.errors = st.errors) ∧
    (∀ fid st2, fieldsLoop scm ts st = .error (fid, st2) → st2.errors = st.errors) := by
  induction ts generalizing st with
  | nil =>
      refine ⟨?_, ?_⟩
      · intro st2 h
        simp only [fieldsLoop] at h
        injection h with h
        subst h
        rfl
      · intro fid st2 h
        simp only [fieldsLoop] at h
        exact Except.noConfusion h
  | cons t rest ih =>
      obtain ⟨fid0, name, lim⟩ := t
      cases lim with
      | nonEnum =>
          refine ⟨?_, ?_⟩
          · intro st2 h
            simp only [fieldsLoop] at h
            exact (ih (setFwd st scm name fid0)).1 st2 h
          · intro fid st2 h
            simp only [fieldsLoop] at h
            exact (ih (setFwd st scm name fid0)).2 fid st2 h
      | enumRegular ns =>
          refine ⟨?_, ?_⟩
          · intro st2 h
            simp only [fieldsLoop] at h
            exact (ih (setEnumFid (setFwd st scm name fid0) scm fid0 (regTable ns))).1 st2 h
          · intro fid st2 h
            simp only [fieldsLoop] at h
            exact (ih (setEnumFid (setFwd st scm name fid0) scm fid0 (regTable ns))).2 fid st2 h
      | enumCustom items =>
          refine ⟨?_, ?_⟩
          · intro st2 h
            simp only [fieldsLoop] at h
            exact (ih (setEnumFid (setFwd st scm name fid0) scm fid0 (customTable items))).1 st2 h
          · intro fid st2 h
            simp only [fieldsLoop] at h
            exact (ih (setEnumFid (setFwd st scm name fid0) scm fid0 (customTable items))).2 fid st2 h
      | enumQuery =>
          refine ⟨?_, ?_⟩
          · intro st2 h
            simp only [fieldsLoop] at h
            exact Except.noConfusion h
          · intro fid st2 h
            simp only [fieldsLoop] at h
            injection h with h
            rw [Prod.mk.injEq] at h
            obtain ⟨h1, h2⟩ := h
            subst h2
            rfl

theorem update_fields_errors (nt : Native) (scm : String) (st : ARSState) :
    ((pmem st.field_name_cache scm && pmem st.field_enum_cache scm) = true →
       (update_fields nt scm st).2.1.errors = st.errors) ∧
    (∀ status, (pmem st.field_name_cache scm && pmem st.field_enum_cache scm) = false →
       nt.getListField scm = .error status →
       (update_fields nt scm st).2.1.errors = status) ∧
    (∀ ids status, (pmem st.field_name_cache scm && pmem st.field_enum_cache scm) = false →
       nt.getListField scm = .ok ids → nt.getMultipleFields scm ids = .error status →
       (update_fields nt scm st).2.1.errors = status) ∧
    (∀ ids names limits,
       (pmem st.field_name_cache scm && pmem st.field_enum_cache scm) = false →
       nt.getListField scm = .ok ids → nt.getMultipleFields scm ids = .ok (names, limits) →
       (update_fields nt scm st).2.1.errors = st.errors) := by
  refine ⟨?_, ?_, ?_, ?_⟩
  · intro h
    unfold update_fields
    rw [if_pos h]
  · intro status h0 h1
    simp only [update_fields, h0, h1, Bool.false_eq_true, if_false, updErrors]
  · intro ids status h0 h1 h2
    simp only [update_fields, h0, h1, h2, Bool.false_eq_true, if_false, updErrors]
  · intro ids names limits h0 h1 h2
    simp only [update_fields, h0, h1, h2, Bool.false_eq_true, if_false]
    split
    · rename_i fid st2 hfl
      exact (fieldsLoop_preserves_errors scm (ids.zip (names.zip limits))
        { st with
          field_name_cache := pset st.field_name_cache scm [],
          field_name_cache_rev := pset st.field_name_cache_rev scm [],
          field_enum_cache := pset st.field_enum_cache scm [] }).2 fid st2 hfl
    · rename_i st2 hfl
      exact (fieldsLoop_preserves_errors scm (ids.zip (names.zip limits))
        { st with
          field_name_cache := pset st.field_name_cache scm [],
          field_name_cache_rev := pset st.field_name_cache_rev scm [],
          field_enum_cache := pset st.field_enum_cache scm [] }).1 st2 hfl

theorem schemas_errors (nt : Native) (st : ARSState) :
    (∀ l, st.schema_cache = some l → (schemas nt st).2.1.errors = st.errors) ∧
    (∀ status, st.schema_cache = Option.none → nt.getListSchema = .error status →
       (schemas nt st).2.1.errors = status) ∧
    (∀ names, st.schema_cache = Option.none → nt.getListSchema = .ok names →
       (schemas nt st).2.1.errors = st.errors) := by
  refine ⟨?_, ?_, ?_⟩
  · intro l h
    simp only [schemas, h]
  · intro status h1 h2
    simp only [schemas, h1, h2, updErrors]
  · intro names h1 h2
    simp only [schemas, h1, h2]

theorem terminate_errors (nt : Native) (st : ARSState) :
    (∀ status, nt.arTermination = .error status → (terminate nt st).2.1.errors = status) ∧
    (nt.arTermination = .ok () → (terminate nt st).2.1.errors = st.errors) := by
  refine ⟨?_, ?_⟩
  · intro status h
    simp only [terminate, h, updErrors]
  · intro h
    simp only [terminate, h]

theorem fields_errors_eq (nt : Native) (scm : String) (st : ARSState) :
    (fields nt scm st).2.1.errors = (update_fields nt scm st).2.1.errors := by
  unfold fields
  split <;> rename_i heq <;> rw [heq]

theorem queryAfterCache_errors (nt : Native) (scm qual : String) (fs : List String)
    (st : ARSState) :
    (∀ g, fs.find? (fun f => !(pmem (pgetD st.field_name_cache scm []) f)) = some g →
       (queryAfterCache nt scm qual fs st).2.1.errors = st.errors) ∧
    (∀ status, fs.find? (fun f => !(pmem (pgetD st.field_name_cache scm []) f)) = Option.none →
       nt.loadQualifier scm qual = .error status →
       (queryAfterCache nt scm qual fs st).2.1.errors = status) ∧
    (∀ status, fs.find? (fun f => !(pmem (pgetD st.field_name_cache scm []) f)) = Option.none →
       nt.loadQualifier scm qual = .ok () →
       nt.getListEntryWithFields scm
         (fs.map (fun f => pgetD (pgetD st.field_name_cache scm []) f 0)) = .error status →
       (queryAfterCache nt scm qual fs st).2.1.errors = status) ∧
    (∀ es, fs.find? (fun f => !(pmem (pgetD st.field_name_cache scm []) f)) = Option.none →
       nt.loadQualifier scm qual = .ok () →
       nt.getListEntryWithFields scm
         (fs.map (fun f => pgetD (pgetD st.field_name_cache scm []) f 0)) = .ok es →
       (queryAfterCache nt scm qual fs st).2.1.errors = st.errors) := by
  refine ⟨?_, ?_, ?_, ?_⟩
  · intro g hg
    rw [queryAfterCache_validation nt scm qual fs st g hg]
  · intro status h1 h2
    simp only [queryAfterCache, h1, h2, updErrors]
  · intro status h1 h2 h3
    simp only [queryAfterCache, h1, h2, h3, updErrors]
  · intro es h1 h2 h3
    simp only [queryAfterCache, h1, h2, h3]
    split <;> rfl

theorem query_errors_step (nt : Native) (scm qual : String) (fs : List String)
    (st : ARSState) :
    (∀ e st1 ev, update_fields nt scm st = (.error e, st1, ev) →
       (query nt scm qual fs st).2.1.errors = st1.errors) ∧
    (∀ st1 ev, update_fields nt scm st = (.ok (), st1, ev) →
       (query nt scm qual fs st).2.1.errors =
         (queryAfterCache nt scm qual fs st1).2.1.errors) := by
  refine ⟨?_, ?_⟩
  · intro e st1 ev h
    unfold query
    rw [h]
  · intro st1 ev h
    rw [query_ok_step nt scm qual fs st st1 ev h]

/-- Claim C1: the claim states that every native result structure allocated
during a call is released exactly once on every exit path.  The code never
calls FreeARFieldLimitList: a single successful update_fields call fills
six result structures but releases only five, the ARFieldLimitList among
them being allocated once and released zero times; likewise the KeyError
exit of a query decode performs six releases against eleven allocations. -/
theorem c1_update_fields_leaks_field_limit_list :
    (update_fields natBase "S" initState).1 = Except.ok () ∧
    allocCount (update_fields natBase "S" initState).2.2 = 6 ∧
    freeCount (update_fields natBase "S" initState).2.2 = 5 ∧
    (update_fields natBase "S" initState).2.2.count (Ev.alloc "ARFieldLimitList") = 1 ∧
    (update_fields natBase "S" initState).2.2.count (Ev.free "ARFieldLimitList") = 0 ∧
    allocCount (query (natC5 5) "S" "q" ["A"] initState).2.2 = 11 ∧
    freeCount (query (natC5 5) "S" "q" ["A"] initState).2.2 = 6 := by
  decide

/-- Claim C2: the claim states that a successful query returns exactly one
(entryId, values) pair per returned record.  The append of the pair sits
inside the per value loop of the code, so the single returned record with
two field values yields two identical pairs in the result. -/
theorem c2_query_appends_one_pair_per_value :
    natC2.getListEntryWithFields "S" [1, 2] =
      Except.ok [{ entryIds := ["000"], values := [(1, .charV "x"), (2, .charV "y")] }] ∧
    (query natC2 "S" "q" ["A", "B"] initState).1 =
      Except.ok [("000", [("A", PyVal.pystr "x"), ("B", PyVal.pystr "y")]),
                 ("000", [("A", PyVal.pystr "x"), ("B", PyVal.pystr "y")])] := by
  decide

/-- Claim C3, counterexample: when update_fields fails on a query style enum
mid loop, the schema stays present in all three caches with the forward map
partially filled, the enum map holding the half initialised entry and the
reverse map empty, so the reverse map is not the inverse of the forward
map; a second update_fields call then treats this partial entry as a cache
hit, making it observable to every other operation. -/
theorem c3_counterexample_partial_cache :
    (update_fields natC3 "S" initState).1 =
      Except.error (Err.ars ("The field id 2 for schema S is a query enum which " ++
        "is not supported by PyRemedy")) ∧
    pmem (update_fields natC3 "S" initState).2.1.field_name_cache "S" = true ∧
    pmem (update_fields natC3 "S" initState).2.1.field_name_cache_rev "S" = true ∧
    pmem (update_fields natC3 "S" initState).2.1.field_enum_cache "S" = true ∧
    pgetD (update_fields natC3 "S" initState).2.1.field_name_cache "S" [] = [("A", 1), ("B", 2)] ∧
    pgetD (update_fields natC3 "S" initState).2.1.field_name_cache_rev "S" [] = [] ∧
    pgetD (update_fields natC3 "S" initState).2.1.field_enum_cache "S" [] = [(2, [])] ∧
    update_fields natC3 "S" (update_fields natC3 "S" initState).2.1 =
      (Except.ok (), (update_fields natC3 "S" initState).2.1, []) := by
  decide

/-- Claim C3 (amended): on the success path of a populating update_fields
call the three per schema maps are all populated and the reverse map is
exactly the inverse of the forward map; the atomicity part of the claim
fails on the query style enum path, where a partially populated entry
remains observable. -/
theorem c3_amended_success_populates_inverse (nt : Native) (scm : String)
    (st st1 : ARSState) (ev : List Ev)
    (h : update_fields nt scm st = (.ok (), st1, ev))
    (hmiss : (pmem st.field_name_cache scm && pmem st.field_enum_cache scm) = false) :
    pmem st1.field_name_cache scm = true ∧
    pmem st1.field_name_cache_rev scm = true ∧
    pmem st1.field_enum_cache scm = true ∧
    pget? st1.field_name_cache_rev scm =
      some (invertDict (pgetD st1.field_name_cache scm [])) :=
  update_fields_populate nt scm st st1 ev h hmiss

/-- Witness for the amended claim C3 at the base fake native layer. -/
theorem c3_amended_witness :
    (pmem initState.field_name_cache "S" && pmem initState.field_enum_cache "S") = false ∧
    (pmem (update_fields natBase "S" initState).2.1.field_name_cache "S" = true ∧
     pmem (update_fields natBase "S" initState).2.1.field_name_cache_rev "S" = true ∧
     pmem (update_fields natBase "S" initState).2.1.field_enum_cache "S" = true ∧
     pget? (update_fields natBase "S" initState).2.1.field_name_cache_rev "S" =
       some (invertDict (pgetD (update_fields natBase "S" initState).2.1.field_name_cache "S" []))) :=
  ⟨by decide,
   c3_amended_success_populates_inverse natBase "S" initState
     (update_fields natBase "S" initState).2.1 (update_fields natBase "S" initState).2.2
     (by rfl) (by decide)⟩

/-- Claim C4, counterexample: a failing schemas call records its status
records in the errors attribute, and a following successful terminate call
leaves them in place, so a new completed call does not discard the previous
diagnostics as the claim states. -/
theorem c4_counterexample_stale_errors :
    (schemas natC4 initState).1 = Except.error (Err.ars "Unable to obtain a list of schemas") ∧
    (schemas natC4 initState).2.1.errors = [(100, "boom", Option.none)] ∧
    (terminate natC4 (schemas natC4 initState).2.1).1 = Except.ok () ∧
    (terminate natC4 (schemas natC4 initState).2.1).2.1.errors = [(100, "boom", Option.none)] := by
  decide

/-- Claim C4 (amended): the errors attribute is rewritten only by a failing
native call, which records exactly that call status records; every other
exit leaves the errors attribute unchanged, so errors reflect the most
recently failed call rather than the most recently completed one.  The
conjuncts characterise errors for every operation and exit: a failing or
successful termination, a cache served, failing or successful schemas call,
a cache served update_fields, its two failing native calls and its metadata
success (covering both the loop success and the query enum exit), fields
delegating to update_fields, query delegating to update_fields and to its
body, and the query body on its validation exit, its two failing native
calls and its entry decode (covering success as well as the KeyError,
multiple id and unknown type exits, which all leave errors untouched). -/
theorem c4_amended_errors_track_failures (nt : Native) (st : ARSState) :
    (∀ status, nt.arTermination = .error status → (terminate nt st).2.1.errors = status) ∧
    (nt.arTermination = .ok () → (terminate nt st).2.1.errors = st.errors) ∧
    (∀ l, st.schema_cache = some l → (schemas nt st).2.1.errors = st.errors) ∧
    (∀ status, st.schema_cache = Option.none → nt.getListSchema = .error status →
       (schemas nt st).2.1.errors = status) ∧
    (∀ names, st.schema_cache = Option.none → nt.getListSchema = .ok names →
       (schemas nt st).2.1.errors = st.errors) ∧
    (∀ scm, (pmem st.field_name_cache scm && pmem st.field_enum_cache scm) = true →
       (update_fields nt scm st).2.1.errors = st.errors) ∧
    (∀ scm status, (pmem st.field_name_cache scm && pmem st.field_enum_cache scm) = false →
       nt.getListField scm = .error status →
       (update_fields nt scm st).2.1.errors = status) ∧
    (∀ scm ids status, (pmem st.field_name_cache scm && pmem st.field_enum_cache scm) = false →
       nt.getListField scm = .ok ids → nt.getMultipleFields scm ids = .error status →
       (update_fields nt scm st).2.1.errors = status) ∧
    (∀ scm ids names limits,
       (pmem st.field_name_cache scm && pmem st.field_enum_cache scm) = false →
       nt.getListField scm = .ok ids → nt.getMultipleFields scm ids = .ok (names, limits) →
       (update_fields nt scm st).2.1.errors = st.errors) ∧
    (∀ scm, (fields nt scm st).2.1.errors = (update_fields nt scm st).2.1.errors) ∧
    (∀ scm qual fs e st1 ev, update_fields nt scm st = (.error e, st1, ev) →
       (query nt scm qual fs st).2.1.errors = st1.errors) ∧
    (∀ scm qual fs st1 ev, update_fields nt scm st = (.ok (), st1, ev) →
       (query nt scm qual fs st).2.1.errors =
         (queryAfterCache nt scm qual fs st1).2.1.errors) ∧
    (∀ scm qual fs g,
       fs.find? (fun f => !(pmem (pgetD st.field_name_cache scm []) f)) = some g →
       (queryAfterCache nt scm qual fs st).2.1.errors = st.errors) ∧
    (∀ scm qual fs status,
       fs.find? (fun f => !(pmem (pgetD st.field_name_cache scm []) f)) = Option.none →
       nt.loadQualifier scm qual = .error status →
       (queryAfterCache nt scm qual fs st).2.1.errors = status) ∧
    (∀ scm qual fs status,
       fs.find? (fun f => !(pmem (pgetD st.field_name_cache scm []) f)) = Option.none →
       nt.loadQualifier scm qual = .ok () →
       nt.getListEntryWithFields scm
         (fs.map (fun f => pgetD (pgetD st.field_name_cache scm []) f 0)) = .error status →
       (queryAfterCache nt scm qual fs st).2.1.errors = status) ∧
    (∀ scm qual fs es,
       fs.find? (fun f => !(pmem (pgetD st.field_name_cache scm []) f)) = Option.none →
       nt.loadQualifier scm qual = .ok () →
       nt.getListEntryWithFields scm
         (fs.map (fun f => pgetD (pgetD st.field_name_cache scm []) f 0)) = .ok es →
       (queryAfterCache nt scm qual fs st).2.1.errors = st.errors) :=
  ⟨(terminate_errors nt st).1, (terminate_errors nt st).2,
   (schemas_errors nt st).1, (schemas_errors nt st).2.1, (schemas_errors nt st).2.2,
   fun scm => (update_fields_errors nt scm st).1,
   fun scm => (update_fields_errors nt scm st).2.1,
   fun scm => (update_fields_errors nt scm st).2.2.1,
   fun scm => (update_fields_errors nt scm st).2.2.2,
   fun scm => fields_errors_eq nt scm st,
   fun scm qual fs => (query_errors_step nt scm qual fs st).1,
   fun scm qual fs => (query_errors_step nt scm qual fs st).2,
   fun scm qual fs => (queryAfterCache_errors nt scm qual fs st).1,
   fun scm qual fs => (queryAfterCache_errors nt scm qual fs st).2.1,
   fun scm qual fs => (queryAfterCache_errors nt scm qual fs st).2.2.1,
   fun scm qual fs => (queryAfterCache_errors nt scm qual fs st).2.2.2⟩

/-- Witness for the amended claim C4: one concrete instance per conjunct,
across the failing fake native layers natFail and natFail2, the succeeding
natBase, and the missing enum ordinal layer natC5 for the KeyError decode
exit. -/
theorem c4_amended_witness :
    (terminate natFail initState).2.1.errors = [(7, "tfail", Option.none)] ∧
    (terminate natBase initState).2.1.errors = initState.errors ∧
    (schemas natBase (schemas natBase initState).2.1).2.1.errors =
      (schemas natBase initState).2.1.errors ∧
    (schemas natFail initState).2.1.errors = [(1, "s", Option.none)] ∧
    (schemas natBase initState).2.1.errors = initState.errors ∧
    (update_fields natBase "S" (update_fields natBase "S" initState).2.1).2.1.errors =
      (update_fields natBase "S" initState).2.1.errors ∧
    (update_fields natFail "S" initState).2.1.errors = [(2, "f", Option.none)] ∧
    (update_fields natFail2 "S" initState).2.1.errors = [(3, "m", Option.none)] ∧
    (update_fields natBase "S" initState).2.1.errors = initState.errors ∧
    (fields natBase "S" initState).2.1.errors = (update_fields natBase "S" initState).2.1.errors ∧
    (query natFail "S" "q" [] initState).2.1.errors =
      (update_fields natFail "S" initState).2.1.errors ∧
    (query natBase "S" "q" ["A"] initState).2.1.errors =
      (queryAfterCache natBase "S" "q" ["A"] (update_fields natBase "S" initState).2.1).2.1.errors ∧
    (queryAfterCache natBase "S" "q" ["Z"] (update_fields natBase "S" initState).2.1).2.1.errors =
      (update_fields natBase "S" initState).2.1.errors ∧
    (queryAfterCache natFail "S" "q" [] initState).2.1.errors = [(4, "q", Option.none)] ∧
    (queryAfterCache natFail2 "S" "q" [] initState).2.1.errors = [(5, "e", Option.none)] ∧
    (queryAfterCache (natC5 5) "S" "q" ["A"]
        (update_fields (natC5 5) "S" initState).2.1).2.1.errors =
      (update_fields (natC5 5) "S" initState).2.1.errors := by
  obtain ⟨hA1, hA2, hA3, hA4, hA5, hA6, hA7, hA8, hA9, hA10, hA11, hA12, hA13, hA14, hA15,
    hA16⟩ := c4_amended_errors_track_failures natBase initState
  obtain ⟨hB1, hB2, hB3, hB4, hB5, hB6, hB7, hB8, hB9, hB10, hB11, hB12, hB13, hB14, hB15,
    hB16⟩ := c4_amended_errors_track_failures natFail initState
  obtain ⟨hC1, hC2, hC3, hC4, hC5, hC6, hC7, hC8, hC9, hC10, hC11, hC12, hC13, hC14, hC15,
    hC16⟩ := c4_amended_errors_track_failures natFail2 initState
  obtain ⟨hD1, hD2, hD3, hD4, hD5, hD6, hD7, hD8, hD9, hD10, hD11, hD12, hD13, hD14, hD15,
    hD16⟩ := c4_amended_errors_track_failures natBase (schemas natBase initState).2.1
  obtain ⟨hE1, hE2, hE3, hE4, hE5, hE6, hE7, hE8, hE9, hE10, hE11, hE12, hE13, hE14, hE15,
    hE16⟩ := c4_amended_errors_track_failures natBase (update_fields natBase "S" initState).2.1
  obtain ⟨hF1, hF2, hF3, hF4, hF5, hF6, hF7, hF8, hF9, hF10, hF11, hF12, hF13, hF14, hF15,
    hF16⟩ := c4_amended_errors_track_failures (natC5 5) (update_fields (natC5 5) "S" initState).2.1
  exact ⟨hB1 [(7, "tfail", Option.none)] rfl,
    hA2 rfl,
    hD3 ["Form1"] (by rfl),
    hB4 [(1, "s", Option.none)] rfl rfl,
    hA5 ["Form1"] rfl rfl,
    hE6 "S" (by decide),
    hB7 "S" [(2, "f", Option.none)] (by decide) rfl,
    hC8 "S" [1] [(3, "m", Option.none)] (by decide) rfl rfl,
    hA9 "S" [1] ["A"] [.nonEnum] (by decide) rfl rfl,
    hA10 "S",
    hB11 "S" "q" [] (Err.ars "Unable to obtain field ids for schema S")
      (update_fields natFail "S" initState).2.1 (update_fields natFail "S" initState).2.2
      (by rfl),
    hA12 "S" "q" ["A"] (update_fields natBase "S" initState).2.1
      (update_fields natBase "S" initState).2.2 (by rfl),
    hE13 "S" "q" ["Z"] "Z" (by decide),
    hB14 "S" "q" [] [(4, "q", Option.none)] rfl rfl,
    hC15 "S" "q" [] [(5, "e", Option.none)] rfl rfl rfl,
    hF16 "S" "q" ["A"] [{ entryIds := ["e1"], values := [(1, RawVal.enumV 5)] }]
      (by decide) rfl (by rfl)⟩

/-- Claim C5, counterexample: a field value tagged ENUM whose ordinal 5 is
not in the enum table of the field escapes as a bare KeyError, not as the
typed error of the binding, and none of the qualifier, field list, entry
list or status structures is released on that path (eleven allocations
against six releases); the present ordinal 0 decodes to its label. -/
theorem c5_counterexample_keyerror_without_release :
    (query (natC5 5) "S" "q" ["A"] initState).1 = Except.error Err.key ∧
    (query (natC5 5) "S" "q" ["A"] initState).2.2.count (Ev.free "ARQualifierStruct") = 0 ∧
    (query (natC5 5) "S" "q" ["A"] initState).2.2.count (Ev.free "AREntryListFieldList") = 0 ∧
    (query (natC5 5) "S" "q" ["A"] initState).2.2.count (Ev.free "AREntryListFieldValueList") = 0 ∧
    allocCount (query (natC5 5) "S" "q" ["A"] initState).2.2 = 11 ∧
    freeCount (query (natC5 5) "S" "q" ["A"] initState).2.2 = 6 ∧
    (query (natC5 0) "S" "q" ["A"] initState).1 =
      Except.ok [("e1", [("A", PyVal.pystr "New")])] := by
  decide

/-- Claim C5 (amended): a field value tagged ENUM with an ordinal missing
from the cached enum table never yields a silent default value, but it
fails the query with a bare KeyError instead of a typed binding error, and
the qualifier, field list and entry list structures are not released before
the error propagates. -/
theorem c5_amended_missing_ordinal_keyerror (n : Nat) (h : n ≠ 0) :
    (query (natC5 n) "S" "q" ["A"] initState).1 = Except.error Err.key ∧
    (query (natC5 n) "S" "q" ["A"] initState).2.2.count (Ev.free "ARQualifierStruct") = 0 ∧
    (query (natC5 n) "S" "q" ["A"] initState).2.2.count (Ev.free "AREntryListFieldList") = 0 ∧
    (query (natC5 n) "S" "q" ["A"] initState).2.2.count (Ev.free "AREntryListFieldValueList") = 0 := by
  match n with
  | 0 => exact absurd rfl h
  | Nat.succ m => exact ⟨rfl, rfl, rfl, rfl⟩

/-- Witness for the amended claim C5 at ordinal 5. -/
theorem c5_amended_witness :
    (5 : Nat) ≠ 0 ∧
    ((query (natC5 5) "S" "q" ["A"] initState).1 = Except.error Err.key ∧
     (query (natC5 5) "S" "q" ["A"] initState).2.2.count (Ev.free "ARQualifierStruct") = 0 ∧
     (query (natC5 5) "S" "q" ["A"] initState).2.2.count (Ev.free "AREntryListFieldList") = 0 ∧
     (query (natC5 5) "S" "q" ["A"] initState).2.2.count (Ev.free "AREntryListFieldValueList") = 0) :=
  ⟨by decide, c5_amended_missing_ordinal_keyerror 5 (by decide)⟩

/-- Claim C6, counterexample: after a completed terminate call, a schemas
call is not rejected: it invokes the native schema listing call and
succeeds, and a query call equally proceeds, because the instance keeps no
termination state. -/
theorem c6_counterexample_operations_proceed_after_terminate :
    (terminate natBase initState).1 = Except.ok () ∧
    (schemas natBase (terminate natBase initState).2.1).1 = Except.ok ["Form1"] ∧
    (schemas natBase (terminate natBase initState).2.1).2.2.count (Ev.call "ARGetListSchema") = 1 ∧
    (query natBase "S" "q" ["A"] (terminate natBase initState).2.1).1 = Except.ok [] := by
  decide

/-- Claim C6 (amended): terminate records no termination state: on success
it returns the instance state unchanged, so every subsequent operation
behaves exactly as it would have before termination, reaching the native
layer or the caches instead of being rejected. -/
theorem c6_amended_terminate_keeps_no_state (nt : Native) (st : ARSState)
    (h : nt.arTermination = .ok ()) :
    (terminate nt st).1 = Except.ok () ∧
    (terminate nt st).2.1 = st ∧
    schemas nt (terminate nt st).2.1 = schemas nt st ∧
    (∀ scm : String, fields nt scm (terminate nt st).2.1 = fields nt scm st) ∧
    (∀ scm qual : String, ∀ fs : List String,
       query nt scm qual fs (terminate nt st).2.1 = query nt scm qual fs st) ∧
    terminate nt (terminate nt st).2.1 = terminate nt st := by
  have hst : (terminate nt st).2.1 = st := by simp [terminate, h]
  have hok : (terminate nt st).1 = Except.ok () := by simp [terminate, h]
  exact ⟨hok, hst, by rw [hst], fun scm => by rw [hst],
    fun scm qual fs => by rw [hst], by rw [hst]⟩

/-- Witness for the amended claim C6 at the base fake native layer. -/
theorem c6_amended_witness :
    natBase.arTermination = Except.ok () ∧
    (terminate natBase initState).1 = Except.ok () ∧
    (terminate natBase initState).2.1 = initState :=
  ⟨rfl, (c6_amended_terminate_keeps_no_state natBase initState rfl).1,
   (c6_amended_terminate_keeps_no_state natBase initState rfl).2.1⟩

/-- Claim C7: a query request holding a field name absent from the schema
cache fails with the validation ARSError naming the first such field and
the schema, the state and the trace are exactly those of the cache
population step, and neither the qualifier compilation call nor the entry
retrieval call is made, nor is any query local structure allocated. -/
theorem c7_missing_field_rejected_before_native (nt : Native) (scm qual : String)
    (fieldsReq : List String) (st st1 : ARSState) (ev : List Ev) (f : String)
    (hok : update_fields nt scm st = (.ok (), st1, ev))
    (hf : f ∈ fieldsReq)
    (hmiss : pmem (pgetD st1.field_name_cache scm []) f = false) :
    ∃ g, g ∈ fieldsReq ∧ pmem (pgetD st1.field_name_cache scm []) g = false ∧
      query nt scm qual fieldsReq st =
        (.error (.ars ("A field with name " ++ g ++ " does not exist in schema " ++ scm)),
         st1, ev) ∧
      (query nt scm qual fieldsReq st).2.2.count (Ev.call "ARLoadARQualifierStruct") = 0 ∧
      (query nt scm qual fieldsReq st).2.2.count (Ev.call "ARGetListEntryWithFields") = 0 ∧
      (query nt scm qual fieldsReq st).2.2.count (Ev.alloc "ARQualifierStruct") = 0 ∧
      (query nt scm qual fieldsReq st).2.2.count (Ev.alloc "AREntryListFieldList") = 0 ∧
      (query nt scm qual fieldsReq st).2.2.count (Ev.alloc "AREntryListFieldValueList") = 0 := by
  obtain ⟨g, hfind, hgmem, hgp⟩ :=
    find?_some_of_mem (p := fun f2 => !(pmem (pgetD st1.field_name_cache scm []) f2)) hf
      (by simp [hmiss])
  have hq : query nt scm qual fieldsReq st =
      (.error (.ars ("A field with name " ++ g ++ " does not exist in schema " ++ scm)),
       st1, ev) := by
    rw [query_ok_step nt scm qual fieldsReq st st1 ev hok,
        queryAfterCache_validation nt scm qual fieldsReq st1 g hfind]
    simp
  have hgf : pmem (pgetD st1.field_name_cache scm []) g = false := by
    simpa using hgp
  have hev : (update_fields nt scm st).2.2 = ev := by rw [hok]
  have hnq := update_fields_no_query_events nt scm st
  rw [hev] at hnq
  refine ⟨g, hgmem, hgf, hq, ?_, ?_, ?_, ?_, ?_⟩ <;> rw [hq]
  exacts [hnq.1, hnq.2.1, hnq.2.2.1, hnq.2.2.2.1, hnq.2.2.2.2]

/-- Witness for claim C7: requesting the absent field Z at the base fake
native layer. -/
theorem c7_witness :
    pmem (pgetD (update_fields natBase "S" initState).2.1.field_name_cache "S" []) "Z" = false ∧
    (∃ g, g ∈ ["Z"] ∧
      pmem (pgetD (update_fields natBase "S" initState).2.1.field_name_cache "S" []) g = false ∧
      query natBase "S" "q" ["Z"] initState =
        (.error (.ars ("A field with name " ++ g ++ " does not exist in schema " ++ "S")),
         (update_fields natBase "S" initState).2.1, (update_fields natBase "S" initState).2.2) ∧
      (query natBase "S" "q" ["Z"] initState).2.2.count (Ev.call "ARLoadARQualifierStruct") = 0 ∧
      (query natBase "S" "q" ["Z"] initState).2.2.count (Ev.call "ARGetListEntryWithFields") = 0 ∧
      (query natBase "S" "q" ["Z"] initState).2.2.count (Ev.alloc "ARQualifierStruct") = 0 ∧
      (query natBase "S" "q" ["Z"] initState).2.2.count (Ev.alloc "AREntryListFieldList") = 0 ∧
      (query natBase "S" "q" ["Z"] initState).2.2.count (Ev.alloc "AREntryListFieldValueList") = 0) :=
  ⟨by decide,
   c7_missing_field_rejected_before_native natBase "S" "q" ["Z"] initState
     (update_fields natBase "S" initState).2.1 (update_fields natBase "S" initState).2.2 "Z"
     (by rfl) (by decide) (by decide)⟩

/-- Claim C8: when the returned entries reach one whose id count is not
exactly one (every earlier entry having a single id and decoding cleanly),
query fails with the multiple id ARSError and the query body trace releases
the qualifier, the field selection list, the entry list result and the
status lists, every release matching its allocation. -/
theorem c8_multi_id_error_releases_all (nt : Native) (scm qual : String)
    (fieldsReq : List String) (st st1 : ARSState) (ev : List Ev)
    (pre : List RawEntry) (bad : RawEntry) (rest : List RawEntry)
    (hok : update_fields nt scm st = (.ok (), st1, ev))
    (hall : ∀ f ∈ fieldsReq, pmem (pgetD st1.field_name_cache scm []) f = true)
    (hlq : nt.loadQualifier scm qual = .ok ())
    (hent : nt.getListEntryWithFields scm
        (fieldsReq.map (fun f => pgetD (pgetD st1.field_name_cache scm []) f 0)) =
      .ok (pre ++ bad :: rest))
    (hbad : bad.entryIds.length ≠ 1)
    (hpre : ∀ e ∈ pre, e.entryIds.length = 1 ∧
       ∃ d c, decodeValues st1 scm e.values [] 0 = .ok (d, c)) :
    (query nt scm qual fieldsReq st).1 =
      .error (.ars ("One or more entries contained multiple IDs that are " ++
        "not supported by PyRemedy")) ∧
    (queryAfterCache nt scm qual fieldsReq st1).2.2.count (Ev.free "ARQualifierStruct") = 1 ∧
    (queryAfterCache nt scm qual fieldsReq st1).2.2.count (Ev.free "AREntryListFieldList") = 1 ∧
    (queryAfterCache nt scm qual fieldsReq st1).2.2.count (Ev.free "AREntryListFieldValueList") = 1 ∧
    (queryAfterCache nt scm qual fieldsReq st1).2.2.count (Ev.free "ARStatusList") = 2 ∧
    allocCount (queryAfterCache nt scm qual fieldsReq st1).2.2 =
      freeCount (queryAfterCache nt scm qual fieldsReq st1).2.2 := by
  have hval : fieldsReq.find? (fun f2 => !(pmem (pgetD st1.field_name_cache scm []) f2)) =
      Option.none :=
    find?_none_of_all (fun x hx => by simp [hall x hx])
  have hloop := entriesLoop_reaches_bad st1 scm pre bad rest hbad hpre []
  have hqac := queryAfterCache_multiId nt scm qual fieldsReq st1 (pre ++ bad :: rest)
    hval hlq hent hloop
  have hcounts : (evQueryPre ++ evQueryFrees).count (Ev.free "ARQualifierStruct") = 1 ∧
      (evQueryPre ++ evQueryFrees).count (Ev.free "AREntryListFieldList") = 1 ∧
      (evQueryPre ++ evQueryFrees).count (Ev.free "AREntryListFieldValueList") = 1 ∧
      (evQueryPre ++ evQueryFrees).count (Ev.free "ARStatusList") = 2 ∧
      allocCount (evQueryPre ++ evQueryFrees) = freeCount (evQueryPre ++ evQueryFrees) := by
    decide
  constructor
  · rw [query_ok_step nt scm qual fieldsReq st st1 ev hok, hqac]
  · rw [hqac]
    exact hcounts

/-- Witness for claim C8: a returned entry carrying two ids at the fake
native layer natC8. -/
theorem c8_witness :
    ({ entryIds := ["a", "b"], values := [] } : RawEntry).entryIds.length ≠ 1 ∧
    ((query natC8 "S" "q" ["A"] initState).1 =
       .error (.ars ("One or more entries contained multiple IDs that are " ++
         "not supported by PyRemedy")) ∧
     (queryAfterCache natC8 "S" "q" ["A"] (update_fields natC8 "S" initState).2.1).2.2.count
       (Ev.free "ARQualifierStruct") = 1 ∧
     (queryAfterCache natC8 "S" "q" ["A"] (update_fields natC8 "S" initState).2.1).2.2.count
       (Ev.free "AREntryListFieldList") = 1 ∧
     (queryAfterCache natC8 "S" "q" ["A"] (update_fields natC8 "S" initState).2.1).2.2.count
       (Ev.free "AREntryListFieldValueList") = 1 ∧
     (queryAfterCache natC8 "S" "q" ["A"] (update_fields natC8 "S" initState).2.1).2.2.count
       (Ev.free "ARStatusList") = 2 ∧
     allocCount (queryAfterCache natC8 "S" "q" ["A"] (update_fields natC8 "S" initState).2.1).2.2 =
       freeCount (queryAfterCache natC8 "S" "q" ["A"] (update_fields natC8 "S" initState).2.1).2.2) :=
  ⟨by decide,
   c8_multi_id_error_releases_all natC8 "S" "q" ["A"] initState
     (update_fields natC8 "S" initState).2.1 (update_fields natC8 "S" initState).2.2
     [] { entryIds := ["a", "b"], values := [] } []
     (by rfl) (by decide) rfl rfl (by decide)
     (fun e he => absurd he (List.not_mem_nil e))⟩

/-- Claim C9: a second update_fields call for a schema whose fields were
already loaded is a cache hit: it performs no native call (empty trace) and
returns the state unchanged; likewise a second schemas call returns the
cached list with an empty trace. -/
theorem c9_second_call_is_cache_hit (nt : Native) (scm : String)
    (st stA stB : ARSState) (ev evB : List Ev) (l : List String) :
    (update_fields nt scm st = (.ok (), stA, ev) →
       update_fields nt scm stA = (.ok (), stA, [])) ∧
    (schemas nt st = (.ok l, stB, evB) → schemas nt stB = (.ok l, stB, [])) := by
  constructor
  · intro h
    obtain ⟨h1, h2⟩ := update_fields_ok_mem nt scm st stA ev h
    simp [update_fields, h1, h2]
  · intro h
    have hc := schemas_ok_cache nt st stB l evB h
    simp [schemas, hc]

/-- Witness for claim C9 at the base fake native layer. -/
theorem c9_witness :
    update_fields natBase "S" (update_fields natBase "S" initState).2.1 =
      (Except.ok (), (update_fields natBase "S" initState).2.1, []) ∧
    schemas natBase (schemas natBase initState).2.1 =
      (Except.ok ["Form1"], (schemas natBase initState).2.1, []) :=
  ⟨(c9_second_call_is_cache_hit natBase "S" initState
      (update_fields natBase "S" initState).2.1 (schemas natBase initState).2.1
      (update_fields natBase "S" initState).2.2 (schemas natBase initState).2.2
      ["Form1"]).1 (by rfl),
   (c9_second_call_is_cache_hit natBase "S" initState
      (update_fields natBase "S" initState).2.1 (schemas natBase initState).2.1
      (update_fields natBase "S" initState).2.2 (schemas natBase initState).2.2
      ["Form1"]).2 (by rfl)⟩

/-- Claim C10: when the native layer reports two field ids i1 and i2 under
the single name N, update_fields succeeds silently, the forward map keeps
only the last id under the name, the earlier id is absent from the reverse
map while the later one maps back to the name, and fields lists the name
once. -/
theorem c10_duplicate_name_keeps_last_id (i1 i2 : Nat) (h : i1 ≠ i2) :
    (update_fields (natC10 i1 i2) "S" initState).1 = Except.ok () ∧
    pgetD (update_fields (natC10 i1 i2) "S" initState).2.1.field_name_cache "S" [] = [("N", i2)] ∧
    pget? (pgetD (update_fields (natC10 i1 i2) "S" initState).2.1.field_name_cache_rev "S" []) i1 =
      Option.none ∧
    pget? (pgetD (update_fields (natC10 i1 i2) "S" initState).2.1.field_name_cache_rev "S" []) i2 =
      some "N" ∧
    (fields (natC10 i1 i2) "S" initState).1 = Except.ok ["N"] := by
  refine ⟨rfl, rfl, ?_, ?_, rfl⟩
  · show pget? [(i2, "N")] i1 = Option.none
    simp [pget?, h]
  · show pget? [(i2, "N")] i2 = some "N"
    simp [pget?]

/-- Witness for claim C10 at ids 1 and 2. -/
theorem c10_witness :
    (1 : Nat) ≠ 2 ∧
    ((update_fields (natC10 1 2) "S" initState).1 = Except.ok () ∧
     pgetD (update_fields (natC10 1 2) "S" initState).2.1.field_name_cache "S" [] = [("N", 2)] ∧
     pget? (pgetD (update_fields (natC10 1 2) "S" initState).2.1.field_name_cache_rev "S" []) 1 =
       Option.none ∧
     pget? (pgetD (update_fields (natC10 1 2) "S" initState).2.1.field_name_cache_rev "S" []) 2 =
       some "N" ∧
     (fields (natC10 1 2) "S" initState).1 = Except.ok ["N"]) :=
  ⟨by decide, c10_duplicate_name_keeps_last_id 1 2 (by decide)⟩

end PyRemedy
